import Mathlib

/-!
Verification development for the InsightSuite repository.

The dashboard-side data model and utility functions are shallowly embedded
from the TypeScript source (`src/lib/types.ts`, the metrics utility module,
`src/store/app.ts`, `src/components/ThemesTreemap.tsx`).  JavaScript numbers
are modelled as rationals (`ℚ`).  The offline analytics pipeline
(`cluster.py`, `personas.py`, `summarize.py`, `run_demo.py`) is not part of
the repository's source tree; where a claim concerns it, the definitions are
modelled from the specification and say so in their doc comments.
-/

namespace InsightSuite

/-- Embeds `Quote` from `src/lib/types.ts`. -/
structure Quote where
  id : String
  text : String
  rating : Option ℚ
  lang : String
deriving DecidableEq, Repr

/-- Embeds one element of the `trend` array of `Cluster` in `src/lib/types.ts`:
`{ week: string; count: number }`. -/
structure TrendPoint where
  week : String
  count : ℚ
deriving DecidableEq, Repr

/-- Embeds `Cluster` from `src/lib/types.ts`. -/
structure Cluster where
  id : String
  label : String
  size : ℚ
  share : ℚ
  sentiment : ℚ
  trend : List TrendPoint
  keywords : List String
  summary : String
  strengths : List String
  weaknesses : List String
  opportunity_score : ℚ
  quotes : List Quote
  co_occurs : List String
deriving DecidableEq, Repr

/-- Embeds `Persona` from `src/lib/types.ts`. -/
structure Persona where
  id : String
  name : String
  share : ℚ
  goals : List String
  pains : List String
  clusters : List String
  quotes : List String
  channels : List String
deriving DecidableEq, Repr

/-- Embeds `TimeseriesPoint` from `src/lib/types.ts`. -/
structure TimeseriesPoint where
  date : String
  sentiment_mean : Option ℚ
  volume : Option ℚ
  share : Option ℚ
  sentiment : Option ℚ
deriving DecidableEq, Repr

/-- Embeds `Timeseries` from `src/lib/types.ts`; the `clusters` record is
modelled as an association list from cluster id to point list. -/
structure Timeseries where
  monthly : Option (List TimeseriesPoint)
  clusters : Option (List (String × List TimeseriesPoint))
deriving DecidableEq, Repr

/-- Embeds the `meta` member of `ProjectData` from `src/lib/types.ts`. -/
structure Meta where
  project_id : String
  name : String
  source : String
  date_range : String × String
  languages : List String
  totals : ℚ × ℚ
deriving DecidableEq, Repr

/-- Embeds the `aggregates` member of `ProjectData` from `src/lib/types.ts`;
`sentiment_dist` is the (neg, neu, pos) triple. -/
structure Aggregates where
  sentiment_mean : ℚ
  sentiment_dist : ℚ × ℚ × ℚ
  rating_hist : List (ℚ × ℚ)
deriving DecidableEq, Repr

/-- Embeds `ProjectData` from `src/lib/types.ts`. -/
structure ProjectData where
  meta : Meta
  aggregates : Aggregates
  clusters : List Cluster
  personas : List Persona
  timeseries : Option Timeseries
deriving DecidableEq, Repr

/-! ### Field names of the dashboard types (claim C2)

The dashboard consumes the artifact by field name, so the declared field
names of `ProjectData` and `Cluster` in `src/lib/types.ts` are transcribed
here literally, paired with whether each field is declared optional (`?`). -/

/-- Top-level fields of `ProjectData` as declared in `src/lib/types.ts`,
with their optionality flags (`timeseries?` is the only optional one). -/
def projectDataFields : List (String × Bool) :=
  [("meta", false), ("aggregates", false), ("clusters", false),
   ("personas", false), ("timeseries", true)]

/-- Fields of `ProjectData.meta` as declared in `src/lib/types.ts`. -/
def metaFields : List String :=
  ["project_id", "name", "source", "date_range", "languages", "totals"]

/-- Fields of `ProjectData.meta.totals` as declared in `src/lib/types.ts`. -/
def totalsFields : List String := ["reviews", "clusters"]

/-- Fields of `ProjectData.aggregates` as declared in `src/lib/types.ts`. -/
def aggregatesFields : List String :=
  ["sentiment_mean", "sentiment_dist", "rating_hist"]

/-- Fields of `sentiment_dist` as declared in `src/lib/types.ts`. -/
def sentimentDistFields : List String := ["neg", "neu", "pos"]

/-- Fields of `Cluster` as declared in `src/lib/types.ts`. -/
def clusterFields : List String :=
  ["id", "label", "size", "share", "sentiment", "trend", "keywords",
   "summary", "strengths", "weaknesses", "opportunity_score", "quotes",
   "co_occurs"]

/-- The artifact's top-level fields as prescribed by the section 6 schema of
the specification (fields are normative; `timeseries` is optional per the
ProjectArtifact shape of section 3, `{meta, aggregates, clusters, personas,
timeseries?}`). -/
def specArtifactFields : List (String × Bool) :=
  [("meta", false), ("aggregates", false), ("clusters", false),
   ("personas", false), ("timeseries", true)]

/-- The `meta` fields prescribed by the section 6 schema. -/
def specMetaFields : List String :=
  ["project_id", "name", "source", "date_range", "languages", "totals"]

/-- The `totals` fields prescribed by the section 6 schema. -/
def specTotalsFields : List String := ["reviews", "clusters"]

/-- The `aggregates` fields prescribed by the section 6 schema. -/
def specAggregatesFields : List String :=
  ["sentiment_mean", "sentiment_dist", "rating_hist"]

/-- The `sentiment_dist` fields prescribed by the section 6 schema. -/
def specSentimentDistFields : List String := ["neg", "neu", "pos"]

/-- The `Cluster` fields prescribed by section 3 of the specification. -/
def specClusterFields : List String :=
  ["id", "label", "size", "share", "sentiment", "trend", "keywords",
   "summary", "strengths", "weaknesses", "opportunity_score", "quotes",
   "co_occurs"]

/-! ### Metrics utilities (embedded from the metrics utility module) -/

/-- Embeds `negIntensity`: `Math.max(0, -cluster.sentiment)`. -/
def negIntensity (cluster : Cluster) : ℚ :=
  max 0 (-cluster.sentiment)

/-- Embeds `calculatePriority`: a weighted combination of negative impact
(weight 0.6) and volume impact (weight 0.4), boosted by 1.2 and capped at 1
when both negative impact exceeds 0.5 and volume impact exceeds 0.15. -/
def calculatePriority (cluster : Cluster) : ℚ :=
  let negativeImpact := negIntensity cluster
  let volumeImpact := cluster.share
  let score := negativeImpact * (6/10) + volumeImpact * (4/10)
  if negativeImpact > 1/2 ∧ volumeImpact > 15/100 then
    min 1 (score * (12/10))
  else
    score

/-- The opportunity-score formula as worded by the specification and the
claim: a function of the negative-sentiment intensity and the share alone,
with weights 0.6 and 0.4 and a 1.2x boost capped at 1 when negativity
exceeds 0.5 and share exceeds 0.15.  Used to compare against
`calculatePriority`. -/
def priorityFromNegAndShare (neg share : ℚ) : ℚ :=
  let score := neg * (6/10) + share * (4/10)
  if neg > 1/2 ∧ share > 15/100 then
    min 1 (score * (12/10))
  else
    score

/-- Embeds `calculateAverageRating`: sums `rating * count` and `count` over
the histogram and returns their quotient when the total count is positive,
`0` otherwise. -/
def calculateAverageRating (ratingHist : List (ℚ × ℚ)) : ℚ :=
  let totalRatings := (ratingHist.map (fun p => p.1 * p.2)).sum
  let totalCount := (ratingHist.map (fun p => p.2)).sum
  if totalCount > 0 then totalRatings / totalCount else 0

end InsightSuite

namespace InsightSuite

/-- C2: the artifact consumed by the dashboard has exactly the field names of
the section 6 schema: the field-name (and optionality) lists declared by the
dashboard's `ProjectData` and `Cluster` types in `src/lib/types.ts` coincide
with those prescribed by the specification. -/
theorem dashboard_types_match_schema :
    projectDataFields = specArtifactFields ∧
    metaFields = specMetaFields ∧
    totalsFields = specTotalsFields ∧
    aggregatesFields = specAggregatesFields ∧
    sentimentDistFields = specSentimentDistFields ∧
    clusterFields = specClusterFields := by
  refine ⟨rfl, rfl, rfl, rfl, rfl, rfl⟩

/-- C3: for a cluster with sentiment in [-1, 1] and share in [0, 1],
`calculatePriority` returns a value in [0, 1], and that value is exactly the
specified function of the negative-sentiment intensity and the share alone
(weights 0.6 and 0.4, 1.2x boost capped at 1 when negativity exceeds 0.5 and
share exceeds 0.15). -/
theorem calculatePriority_in_unit_interval (c : Cluster)
    (hs₁ : -1 ≤ c.sentiment) (hs₂ : c.sentiment ≤ 1)
    (hv₁ : 0 ≤ c.share) (hv₂ : c.share ≤ 1) :
    0 ≤ calculatePriority c ∧ calculatePriority c ≤ 1 ∧
      calculatePriority c = priorityFromNegAndShare (negIntensity c) c.share := by
  have hneg₁ : 0 ≤ negIntensity c := le_max_left 0 _
  have hneg₂ : negIntensity c ≤ 1 := by
    have h : -c.sentiment ≤ 1 := by linarith
    exact max_le (by norm_num) h
  have hscore₁ : 0 ≤ negIntensity c * (6/10) + c.share * (4/10) := by positivity
  have hscore₂ : negIntensity c * (6/10) + c.share * (4/10) ≤ 1 := by nlinarith
  refine ⟨?_, ?_, rfl⟩
  · unfold calculatePriority
    dsimp only
    split
    · exact le_min (by norm_num) (by nlinarith)
    · exact hscore₁
  · unfold calculatePriority
    dsimp only
    split
    · exact min_le_left _ _
    · exact hscore₂

/-- A concrete cluster used to witness claim C3. -/
def priorityWitnessCluster : Cluster :=
  { id := "c1", label := "Shipping delays", size := 200, share := 1/5,
    sentiment := -4/5, trend := [], keywords := ["shipping", "late"],
    summary := "Deliveries are late.", strengths := [],
    weaknesses := ["late delivery"], opportunity_score := 0, quotes := [],
    co_occurs := [] }

/-- Witness for C3 at a concrete cluster (boosted branch: negativity 0.8,
share 0.2). -/
theorem calculatePriority_in_unit_interval_witness :
    (-1 ≤ priorityWitnessCluster.sentiment) ∧
    (priorityWitnessCluster.sentiment ≤ 1) ∧
    (0 ≤ priorityWitnessCluster.share) ∧
    (priorityWitnessCluster.share ≤ 1) ∧
    (0 ≤ calculatePriority priorityWitnessCluster ∧
      calculatePriority priorityWitnessCluster ≤ 1 ∧
      calculatePriority priorityWitnessCluster =
        priorityFromNegAndShare (negIntensity priorityWitnessCluster)
          priorityWitnessCluster.share) :=
  ⟨by norm_num [priorityWitnessCluster], by norm_num [priorityWitnessCluster],
   by norm_num [priorityWitnessCluster], by norm_num [priorityWitnessCluster],
   calculatePriority_in_unit_interval priorityWitnessCluster
     (by norm_num [priorityWitnessCluster]) (by norm_num [priorityWitnessCluster])
     (by norm_num [priorityWitnessCluster]) (by norm_num [priorityWitnessCluster])⟩

/-- C10: for a rating histogram with non-negative counts,
`calculateAverageRating` is division-safe: it returns 0 when the total count
is 0, and otherwise the count-weighted mean of the ratings. -/
theorem calculateAverageRating_division_safe (ratingHist : List (ℚ × ℚ))
    (h : ∀ p ∈ ratingHist, 0 ≤ p.2) :
    ((ratingHist.map (fun p => p.2)).sum = 0 →
        calculateAverageRating ratingHist = 0) ∧
    ((ratingHist.map (fun p => p.2)).sum ≠ 0 →
        calculateAverageRating ratingHist =
          (ratingHist.map (fun p => p.1 * p.2)).sum /
            (ratingHist.map (fun p => p.2)).sum) := by
  have hsum : 0 ≤ (ratingHist.map (fun p => p.2)).sum := by
    apply List.sum_nonneg
    intro x hx
    rcases List.mem_map.1 hx with ⟨p, hp, rfl⟩
    exact h p hp
  constructor
  · intro h0
    unfold calculateAverageRating
    dsimp only
    rw [if_neg]
    rw [h0]
    norm_num
  · intro hne
    have hpos : 0 < (ratingHist.map (fun p => p.2)).sum :=
      lt_of_le_of_ne hsum (Ne.symm hne)
    unfold calculateAverageRating
    dsimp only
    rw [if_pos hpos]

/-- A concrete rating histogram used to witness claim C10. -/
def ratingHistWitness : List (ℚ × ℚ) := [(5, 2), (3, 1), (1, 0)]

/-- Witness for C10 at a concrete histogram: counts are non-negative, the
total count 3 is nonzero, and the weighted mean is 13/3. -/
theorem calculateAverageRating_division_safe_witness :
    (∀ p ∈ ratingHistWitness, 0 ≤ p.2) ∧
    ((ratingHistWitness.map (fun p => p.2)).sum = 0 →
        calculateAverageRating ratingHistWitness = 0) ∧
    ((ratingHistWitness.map (fun p => p.2)).sum ≠ 0 →
        calculateAverageRating ratingHistWitness =
          (ratingHistWitness.map (fun p => p.1 * p.2)).sum /
            (ratingHistWitness.map (fun p => p.2)).sum) :=
  ⟨by decide,
   (calculateAverageRating_division_safe ratingHistWitness (by decide)).1,
   (calculateAverageRating_division_safe ratingHistWitness (by decide)).2⟩

end InsightSuite

namespace InsightSuite

/-! ### Application store (embedded from `src/store/app.ts`) -/

/-- The three selectable projects of the store
(`"airbnb" | "mobile" | "ecommerce"`). -/
inductive Project where
  | airbnb
  | mobile
  | ecommerce
deriving DecidableEq, Repr

/-- Embeds the state portion of `AppState` from `src/store/app.ts`; the
JavaScript `Set<string>` is modelled as a `Finset String`. -/
structure AppState where
  selectedProject : Project
  projectData : Option ProjectData
  isLoading : Bool
  error : Option String
  selectedClusterId : Option String
  compareSet : Finset String
  showFilters : Bool
  searchQuery : String

/-- Embeds `initialState` from `src/store/app.ts`. -/
def initialState : AppState :=
  { selectedProject := .airbnb, projectData := none, isLoading := false,
    error := none, selectedClusterId := none, compareSet := ∅,
    showFilters := false, searchQuery := "" }

/-- Embeds the `setSelectedProject` action: also clears the selected cluster,
the compare set and the error. -/
def setSelectedProject (project : Project) (s : AppState) : AppState :=
  { s with selectedProject := project, selectedClusterId := none,
           compareSet := ∅, error := none }

/-- Embeds the `setProjectData` action. -/
def setProjectData (data : Option ProjectData) (s : AppState) : AppState :=
  { s with projectData := data, error := none }

/-- Embeds the `setIsLoading` action. -/
def setIsLoading (loading : Bool) (s : AppState) : AppState :=
  { s with isLoading := loading }

/-- Embeds the `setError` action. -/
def setError (e : Option String) (s : AppState) : AppState :=
  { s with error := e, isLoading := false }

/-- Embeds the `setSelectedClusterId` action. -/
def setSelectedClusterId (id : Option String) (s : AppState) : AppState :=
  { s with selectedClusterId := id }

/-- Embeds the `toggleCompareCluster` action: removes the id when present,
otherwise adds it only while fewer than 5 ids are selected. -/
def toggleCompareCluster (id : String) (s : AppState) : AppState :=
  if id ∈ s.compareSet then
    { s with compareSet := s.compareSet.erase id }
  else if s.compareSet.card < 5 then
    { s with compareSet := insert id s.compareSet }
  else
    { s with compareSet := s.compareSet }

/-- Embeds the `clearCompareSet` action. -/
def clearCompareSet (s : AppState) : AppState :=
  { s with compareSet := ∅ }

/-- Embeds the `setShowFilters` action. -/
def setShowFilters (show' : Bool) (s : AppState) : AppState :=
  { s with showFilters := show' }

/-- Embeds the `setSearchQuery` action. -/
def setSearchQuery (query : String) (s : AppState) : AppState :=
  { s with searchQuery := query }

/-- Embeds the `reset` action: restores `initialState`. -/
def reset (_s : AppState) : AppState :=
  initialState

/-- One store action of `src/store/app.ts`, with its argument. -/
inductive Action where
  | setSelectedProject (project : Project)
  | setProjectData (data : Option ProjectData)
  | setIsLoading (loading : Bool)
  | setError (e : Option String)
  | setSelectedClusterId (id : Option String)
  | toggleCompareCluster (id : String)
  | clearCompareSet
  | setShowFilters (show' : Bool)
  | setSearchQuery (query : String)
  | reset

/-- Applies one store action to the state. -/
def step (s : AppState) : Action → AppState
  | .setSelectedProject project => setSelectedProject project s
  | .setProjectData data => setProjectData data s
  | .setIsLoading loading => setIsLoading loading s
  | .setError e => setError e s
  | .setSelectedClusterId id => setSelectedClusterId id s
  | .toggleCompareCluster id => toggleCompareCluster id s
  | .clearCompareSet => clearCompareSet s
  | .setShowFilters show' => setShowFilters show' s
  | .setSearchQuery query => setSearchQuery query s
  | .reset => reset s

/-- Runs a sequence of store actions from the initial state. -/
def runActions (acts : List Action) : AppState :=
  acts.foldl step initialState

/-- One step preserves the 5-element bound on the compare set. -/
lemma step_compareSet_card_le (s : AppState) (a : Action)
    (h : s.compareSet.card ≤ 5) : (step s a).compareSet.card ≤ 5 := by
  cases a with
  | toggleCompareCluster id =>
      show (toggleCompareCluster id s).compareSet.card ≤ 5
      unfold toggleCompareCluster
      split
      · show (s.compareSet.erase id).card ≤ 5
        exact le_trans Finset.card_erase_le h
      · split
        · rename_i hc
          show (insert id s.compareSet).card ≤ 5
          have hle := Finset.card_insert_le id s.compareSet
          omega
        · exact h
  | setSelectedProject project =>
      show ((∅ : Finset String)).card ≤ 5
      simp
  | setProjectData data => exact h
  | setIsLoading loading => exact h
  | setError e => exact h
  | setSelectedClusterId id => exact h
  | clearCompareSet =>
      show ((∅ : Finset String)).card ≤ 5
      simp
  | setShowFilters show' => exact h
  | setSearchQuery query => exact h
  | reset =>
      show ((∅ : Finset String)).card ≤ 5
      simp

/-- Folding any action list preserves the bound. -/
lemma foldl_compareSet_card_le (acts : List Action) (s : AppState)
    (h : s.compareSet.card ≤ 5) :
    (acts.foldl step s).compareSet.card ≤ 5 := by
  induction acts generalizing s with
  | nil => simpa
  | cons a rest ih => exact ih (step s a) (step_compareSet_card_le s a h)

end InsightSuite

namespace InsightSuite

/-- C8: the compare set never holds more than 5 cluster ids: after any
sequence of store actions applied from the initial state, its cardinality is
at most 5. -/
theorem compareSet_card_le_five (acts : List Action) :
    (runActions acts).compareSet.card ≤ 5 :=
  foldl_compareSet_card_le acts initialState (by simp [initialState])

end InsightSuite

namespace InsightSuite

/-! ### Treemap data preparation (embedded from
`src/components/ThemesTreemap.tsx`) -/

/-- One node of the treemap data prepared by `ThemesTreemap`. -/
structure TreemapNode where
  name : String
  fullName : String
  size : ℤ
  sentiment : ℚ
  id : String
  share : ℚ
  keywords : List String
deriving DecidableEq, Repr

/-- Embeds the validity filter of `ThemesTreemap`: a cluster is kept when it
has a numeric share (always true in this model) and truthy (non-empty)
`label` and `id` strings. -/
def validCluster (c : Cluster) : Bool :=
  !(c.label == "") && !(c.id == "")

/-- Embeds the construction of a main treemap node from a cluster: the label
is truncated past 28 characters, the node size is `max 1 (round (share *
1000))`, and at most 3 keywords are kept. -/
def mkTreemapNode (c : Cluster) : TreemapNode :=
  { name := if 28 < c.label.length then c.label.take 25 ++ "..." else c.label,
    fullName := c.label,
    size := max 1 (round (c.share * 1000)),
    sentiment := c.sentiment,
    id := c.id,
    share := c.share,
    keywords := c.keywords.take 3 }

/-- Embeds the "Altri temi" aggregate node built from the small clusters
(count `n`, accumulated share `smallShare`). -/
def altriNode (n : ℕ) (smallShare : ℚ) : TreemapNode :=
  { name := "Altri temi",
    fullName := toString n ++ " temi minori",
    size := max 1 (round (smallShare * 1000)),
    sentiment := 0,
    id := "altri",
    share := smallShare,
    keywords := ["vari", "minori"] }

/-- The 2% threshold test of `ThemesTreemap` (`cluster.share >= 0.02`). -/
def aboveThreshold (c : Cluster) : Bool :=
  decide ((2 : ℚ)/100 ≤ c.share)

/-- Embeds the `data` preparation of `ThemesTreemap`: empty input gives no
nodes; otherwise the valid clusters are sorted by descending share, those at
or above the 2% share threshold become main nodes, and the remaining small
clusters (when any) are merged into a single "Altri temi" node carrying their
accumulated share. -/
def prepareTreemapData (clusters : List Cluster) : List TreemapNode :=
  if clusters.isEmpty then [] else
  let validClusters := clusters.filter validCluster
  if validClusters.isEmpty then [] else
  let sorted := validClusters.mergeSort (fun a b => decide (b.share ≤ a.share))
  let mainClusters := (sorted.filter aboveThreshold).map mkTreemapNode
  let smallClusters := sorted.filter (fun c => !(aboveThreshold c))
  let smallShare := (smallClusters.map Cluster.share).sum
  if smallClusters.isEmpty then mainClusters
  else mainClusters ++ [altriNode smallClusters.length smallShare]

/-- Partitioning a cluster list by a Boolean predicate splits the sum of the
shares. -/
lemma share_sum_filter_split (l : List Cluster) (p : Cluster → Bool) :
    ((l.filter p).map Cluster.share).sum
      + ((l.filter (fun c => !(p c))).map Cluster.share).sum
      = (l.map Cluster.share).sum := by
  induction l with
  | nil => simp
  | cons c t ih =>
      by_cases hp : p c
      · simp only [List.filter_cons, hp, Bool.not_true, if_true, if_false,
          List.map_cons, List.sum_cons, List.map, cond_true, cond_false]
        simp only [List.filter_cons] at ih ⊢
        simp [hp]
        linarith
      · simp only [List.filter_cons] at ih ⊢
        simp [hp]
        linarith

end InsightSuite

namespace InsightSuite

/-- C9: the treemap data preparation conserves total share: the sum of the
`share` fields of the produced nodes equals the sum of the shares of the
valid input clusters (clusters below the 2% threshold being merged into the
single "Altri temi" node carrying the sum of their shares). -/
theorem prepareTreemapData_conserves_share (clusters : List Cluster) :
    ((prepareTreemapData clusters).map TreemapNode.share).sum
      = ((clusters.filter validCluster).map Cluster.share).sum := by
  unfold prepareTreemapData
  by_cases hempty : clusters.isEmpty
  · rw [if_pos hempty]
    rcases List.isEmpty_iff.1 hempty with rfl
    simp
  · rw [if_neg hempty]
    by_cases hv : (clusters.filter validCluster).isEmpty
    · rw [if_pos hv]
      rcases List.isEmpty_iff.1 hv with hnil
      rw [hnil]
      simp
    · rw [if_neg hv]
      set valid := clusters.filter validCluster with hvalid
      set sorted := valid.mergeSort (fun a b => decide (b.share ≤ a.share))
        with hsorted
      have hperm : sorted.Perm valid := List.mergeSort_perm valid _
      have hsum : (sorted.map Cluster.share).sum = (valid.map Cluster.share).sum :=
        (hperm.map Cluster.share).sum_eq
      have hmain : (((sorted.filter aboveThreshold).map mkTreemapNode).map
          TreemapNode.share).sum
          = ((sorted.filter aboveThreshold).map Cluster.share).sum := by
        rw [List.map_map]
        rfl
      by_cases hs : (sorted.filter (fun c => !(aboveThreshold c))).isEmpty
      · rw [if_pos hs]
        have hzero : ((sorted.filter (fun c => !(aboveThreshold c))).map
            Cluster.share).sum = 0 := by
          rcases List.isEmpty_iff.1 hs with hnil
          rw [hnil]
          simp
        have := share_sum_filter_split sorted aboveThreshold
        rw [hmain]
        linarith [hsum]
      · rw [if_neg hs]
        rw [List.map_append, List.sum_append]
        rw [hmain]
        have haltri : (([altriNode
            (sorted.filter (fun c => !(aboveThreshold c))).length
            ((sorted.filter (fun c => !(aboveThreshold c))).map
              Cluster.share).sum]).map TreemapNode.share).sum
            = ((sorted.filter (fun c => !(aboveThreshold c))).map
              Cluster.share).sum := by
          simp [altriNode]
        rw [haltri]
        have := share_sum_filter_split sorted aboveThreshold
        linarith [hsum]

end InsightSuite

namespace InsightSuite

/-! ### Offline pipeline, modelled from the specification

The analytics pipeline (`cluster.py`, `personas.py`, `summarize.py`,
`utils.py`, `run_demo.py`) is referenced by the repository's documentation
but its code is not under `src/`; the definitions below are modelled from
the specification. -/

/-- Modelled from the spec: the Cluster Engine's assignment of the N reviews
of a dataset (`cluster.py` is missing from `src/`): each cluster has a size,
points in no dense region go to the implicit unclustered ("noise") bucket
rather than being discarded, so sizes and noise together exhaust the
dataset. -/
structure ClusterAssignment where
  total : ℕ
  sizes : List ℕ
  noise : ℕ
  complete : sizes.sum + noise = total

/-- Modelled from the spec: `share` is `size / total_reviews_in_dataset`,
one value per cluster. -/
def clusterShares (a : ClusterAssignment) : List ℚ :=
  a.sizes.map (fun (s : ℕ) => (s : ℚ) / (a.total : ℚ))

/-- Modelled from the spec: the unclustered ("noise") share of an
assignment. -/
def noiseShare (a : ClusterAssignment) : ℚ :=
  (a.noise : ℚ) / (a.total : ℚ)

/-- Dividing each element of a list of naturals by a rational and summing is
the same as dividing the sum. -/
lemma sum_map_cast_div (l : List ℕ) (T : ℚ) :
    (l.map (fun (s : ℕ) => (s : ℚ) / T)).sum = ((l.sum : ℚ)) / T := by
  induction l with
  | nil => simp
  | cons x t ih =>
      simp only [List.map_cons, List.sum_cons, ih, List.sum_cons,
        Nat.cast_add, add_div]

/-- Modelled from the spec: the adaptive minimum-cluster-size parameter of
the Cluster Engine (`cluster.py` is missing from `src/`): scaled with the
dataset size N, interpolating linearly from 30 at N = 500 up to 80 at
N = 50000 and clamped at 80 beyond. -/
def adaptiveMinClusterSize (N : ℕ) : ℕ :=
  min 80 (30 + (N - 500) * 50 / 49500)

end InsightSuite

namespace InsightSuite

/-- C1: in the artifact of a pipeline run every cluster's share lies in
[0, 1], and the sum of all cluster shares plus the unclustered/noise share is
at most 1 (the assignment exhausts the dataset, so the sum is in fact 1). -/
theorem cluster_shares_unit_and_sum_le_one (a : ClusterAssignment)
    (h : 0 < a.total) :
    (∀ q ∈ clusterShares a, 0 ≤ q ∧ q ≤ 1) ∧
      (clusterShares a).sum + noiseShare a ≤ 1 := by
  have htpos : (0 : ℚ) < (a.total : ℚ) := by exact_mod_cast h
  constructor
  · intro q hq
    rcases List.mem_map.1 hq with ⟨s, hs, rfl⟩
    have hsle : s ≤ a.total := by
      have h1 : s ≤ a.sizes.sum :=
        List.single_le_sum (fun x _ => Nat.zero_le x) s hs
      have h2 := a.complete
      omega
    constructor
    · exact div_nonneg (Nat.cast_nonneg s) (le_of_lt htpos)
    · exact (div_le_one htpos).2 (by exact_mod_cast hsle)
  · unfold clusterShares noiseShare
    rw [sum_map_cast_div, div_add_div_same]
    have hc : ((a.sizes.sum : ℚ)) + (a.noise : ℚ) = (a.total : ℚ) := by
      exact_mod_cast congrArg (Nat.cast : ℕ → ℚ) a.complete
    rw [hc, div_self (ne_of_gt htpos)]

/-- A concrete cluster assignment (10 reviews: clusters of 6 and 3, one
noise point) used to witness claim C1. -/
def clusterAssignmentWitness : ClusterAssignment :=
  { total := 10, sizes := [6, 3], noise := 1, complete := by decide }

/-- Witness for C1 at a concrete assignment. -/
theorem cluster_shares_unit_and_sum_le_one_witness :
    0 < clusterAssignmentWitness.total ∧
    ((∀ q ∈ clusterShares clusterAssignmentWitness, 0 ≤ q ∧ q ≤ 1) ∧
      (clusterShares clusterAssignmentWitness).sum +
        noiseShare clusterAssignmentWitness ≤ 1) :=
  ⟨by decide, cluster_shares_unit_and_sum_le_one clusterAssignmentWitness
    (by decide)⟩

/-- C4: the adaptive minimum-cluster-size parameter is monotonically
non-decreasing in the dataset size. -/
theorem adaptiveMinClusterSize_monotone (m n : ℕ) (h : m ≤ n) :
    adaptiveMinClusterSize m ≤ adaptiveMinClusterSize n := by
  unfold adaptiveMinClusterSize
  have h1 : m - 500 ≤ n - 500 := Nat.sub_le_sub_right h 500
  have h2 : (m - 500) * 50 ≤ (n - 500) * 50 := Nat.mul_le_mul_right 50 h1
  have h3 : (m - 500) * 50 / 49500 ≤ (n - 500) * 50 / 49500 :=
    Nat.div_le_div_right h2
  exact min_le_min (le_refl 80) (Nat.add_le_add_left h3 30)

/-- Witness for C4 at the documented endpoints: 500 ≤ 50000 and the adaptive
minimum at 500 (which evaluates to 30) is at most the one at 50000 (which
evaluates to 80). -/
theorem adaptiveMinClusterSize_monotone_witness :
    500 ≤ 50000 ∧
      adaptiveMinClusterSize 500 ≤ adaptiveMinClusterSize 50000 :=
  ⟨by decide, adaptiveMinClusterSize_monotone 500 50000 (by decide)⟩

end InsightSuite

namespace InsightSuite

/-- Modelled from the spec: one behavioral segment formed by the Persona
Synthesizer (`personas.py` is missing from `src/`): the clusters it
groups. -/
structure Segment where
  members : List Cluster

/-- Modelled from the spec: a segment's share aggregates its contributing
clusters' shares. -/
def segmentShare (s : Segment) : ℚ :=
  (s.members.map Cluster.share).sum

/-- Modelled from the spec: the persona representing one segment: its share
is the segment's aggregated share, it references its contributing clusters,
and it samples quotes across them. -/
def personaOfSegment (s : Segment) : Persona :=
  { id := "persona-" ++ String.intercalate "-" (s.members.map Cluster.id),
    name := String.intercalate " + " (s.members.map Cluster.label),
    share := segmentShare s,
    goals := (s.members.map Cluster.strengths).flatten,
    pains := (s.members.map Cluster.weaknesses).flatten,
    clusters := s.members.map Cluster.id,
    quotes := ((s.members.map (fun c => c.quotes.map Quote.text)).flatten).take 3,
    channels := ["app", "web"] }

/-- Modelled from the spec: when only one distinguishable behavior group
exists, the dominant segment is split into two personas that halve its
share. -/
def splitDominant (s : Segment) : List Persona :=
  let p := personaOfSegment s
  [{ p with id := p.id ++ "-a", share := p.share / 2 },
   { p with id := p.id ++ "-b", share := p.share / 2 }]

/-- Modelled from the spec: the initial segmentation of the Persona
Synthesizer.  Clusters are ordered by descending share and each starts as
its own segment (the co-occurrence/similarity metric is left open by the
specification). -/
def initialSegments (clusters : List Cluster) : List Segment :=
  (clusters.mergeSort (fun a b => decide (b.share ≤ a.share))).map
    (fun c => Segment.mk [c])

/-- Modelled from the spec: `synthesize(clusters) -> personas` (continued):
more than 4 segments are compressed to 4 by merging the smallest ones into
the fourth persona, a single segment is split into 2 personas, and otherwise
each segment yields one persona. -/
def synthesize (clusters : List Cluster) : List Persona :=
  if 4 < (initialSegments clusters).length then
    ((initialSegments clusters).take 3).map personaOfSegment ++
      [personaOfSegment (Segment.mk
        (((initialSegments clusters).drop 3).map Segment.members).flatten)]
  else if (initialSegments clusters).length = 1 then
    splitDominant (Segment.mk
      (clusters.mergeSort (fun a b => decide (b.share ≤ a.share))))
  else
    (initialSegments clusters).map personaOfSegment

end InsightSuite

namespace InsightSuite

/-- C5: for any input with at least one cluster, `synthesize` returns between
2 and 4 personas, regardless of the number of input clusters. -/
theorem synthesize_persona_count (clusters : List Cluster)
    (h : clusters ≠ []) :
    2 ≤ (synthesize clusters).length ∧ (synthesize clusters).length ≤ 4 := by
  unfold synthesize
  have hseglen : (initialSegments clusters).length = clusters.length := by
    unfold initialSegments
    rw [List.length_map, List.length_mergeSort]
  have hpos : 0 < clusters.length := List.length_pos.2 h
  split_ifs with h4 h1
  · rw [List.length_append, List.length_map, List.length_take]
    rw [hseglen] at h4 ⊢
    simp only [List.length_singleton]
    omega
  · unfold splitDominant
    simp
  · rw [List.length_map, hseglen]
    rw [hseglen] at h4 h1
    omega

/-- A concrete singleton cluster list used to witness claim C5. -/
def personaWitnessClusters : List Cluster :=
  [{ id := "c9", label := "Pulizia", size := 40, share := 1,
     sentiment := 1/2, trend := [], keywords := ["pulizia"],
     summary := "Recensioni sulla pulizia.", strengths := ["camere pulite"],
     weaknesses := [], opportunity_score := 0, quotes := [],
     co_occurs := [] }]

/-- Witness for C5: a single input cluster still yields between 2 and 4
personas. -/
theorem synthesize_persona_count_witness :
    personaWitnessClusters ≠ [] ∧
      (2 ≤ (synthesize personaWitnessClusters).length ∧
        (synthesize personaWitnessClusters).length ≤ 4) :=
  ⟨List.cons_ne_nil _ _,
   synthesize_persona_count personaWitnessClusters (List.cons_ne_nil _ _)⟩

end InsightSuite

namespace InsightSuite

/-- Modelled from the spec: a draft returned by the LLM map-reduce pass of
the Summarizer (`summarize.py` is missing from `src/`).  A failed call is
modelled as `none`; a returned draft may still be unusable (empty label or
summary). -/
structure LlmDraft where
  label : String
  summary : String
  strengths : List String
  weaknesses : List String
deriving DecidableEq, Repr

/-- Modelled from the spec: the Summarizer's result for one cluster. -/
structure SummaryResult where
  label : String
  summary : String
  strengths : List String
  weaknesses : List String
deriving DecidableEq, Repr

/-- Modelled from the spec: an LLM outcome is usable when a draft was
returned with a non-empty label and a non-empty summary. -/
def usableDraft : Option LlmDraft → Bool
  | none => false
  | some d => !(d.label == "") && !(d.summary == "")

/-- Modelled from the spec: the deterministic rule-based fallback label,
derived from the cluster's top keywords (with a fixed default when no
keyword text is available). -/
def fallbackLabel (c : Cluster) : String :=
  if String.intercalate " / " (c.keywords.take 3) == "" then "Tema generale"
  else String.intercalate " / " (c.keywords.take 3)

/-- Modelled from the spec: the deterministic rule-based fallback summary,
derived from sentiment polarity plus cluster size. -/
def fallbackSummary (c : Cluster) : String :=
  (if (1 : ℚ)/5 < c.sentiment then "Feedback prevalentemente positivo"
   else if c.sentiment < -(1 : ℚ)/5 then "Feedback prevalentemente negativo"
   else "Feedback misto") ++ " su " ++ toString c.size.num ++ " recensioni."

/-- Modelled from the spec: the full rule-based fallback result. -/
def ruleBasedSummary (c : Cluster) : SummaryResult :=
  { label := fallbackLabel c, summary := fallbackSummary c,
    strengths := [], weaknesses := [] }

/-- Modelled from the spec: `summarize(cluster)` given the outcome of the
LLM call: a usable draft is taken verbatim, anything else falls back to the
deterministic rule-based result. -/
def summarize (c : Cluster) (llm : Option LlmDraft) : SummaryResult :=
  match llm with
  | some d =>
      if !(d.label == "") && !(d.summary == "") then
        { label := d.label, summary := d.summary,
          strengths := d.strengths, weaknesses := d.weaknesses }
      else
        ruleBasedSummary c
  | none => ruleBasedSummary c

/-- A string with positive length is not the empty string. -/
lemma ne_empty_of_length_pos (s : String) (h : 0 < s.length) : s ≠ "" := by
  intro heq
  rw [heq] at h
  simp at h

/-- Appending cannot shrink a string below the length of its right part. -/
lemma length_append_pos_right (a b : String) (h : 0 < b.length) :
    0 < (a ++ b).length := by
  rw [String.length_append]
  omega

/-- The fallback label is never empty. -/
lemma fallbackLabel_ne_empty (c : Cluster) : fallbackLabel c ≠ "" := by
  unfold fallbackLabel
  split
  · decide
  · rename_i hcond
    simpa using hcond

/-- The fallback summary is never empty. -/
lemma fallbackSummary_ne_empty (c : Cluster) : fallbackSummary c ≠ "" := by
  apply ne_empty_of_length_pos
  unfold fallbackSummary
  apply length_append_pos_right
  decide

end InsightSuite

namespace InsightSuite

/-- C6: for every cluster and every LLM outcome — including a failed call
(`none`) and unusable output — the Summarizer yields a non-empty label and a
non-empty summary, the fallback deriving the label from top keywords and the
summary from sentiment polarity plus cluster size. -/
theorem summarize_label_summary_nonempty (c : Cluster)
    (llm : Option LlmDraft) :
    (summarize c llm).label ≠ "" ∧ (summarize c llm).summary ≠ "" := by
  cases llm with
  | none =>
      exact ⟨fallbackLabel_ne_empty c, fallbackSummary_ne_empty c⟩
  | some d =>
      simp only [summarize]
      split
      · rename_i hcond
        simp only [Bool.and_eq_true, Bool.not_eq_true',
          beq_eq_false_iff_ne] at hcond
        exact ⟨hcond.1, hcond.2⟩
      · exact ⟨fallbackLabel_ne_empty c, fallbackSummary_ne_empty c⟩

end InsightSuite

namespace InsightSuite

/-- Modelled from the spec: one raw tabular record before normalization
(the loaders of `utils.py` are missing from `src/`): every field of the
arbitrary per-source schema may be absent. -/
structure RawRecord where
  id : Option String
  text : Option String
  rating : Option ℚ
  timestamp : Option String
  lang : Option String
  source : Option String
deriving DecidableEq, Repr

/-- Modelled from the spec: a normalized review
`{id, text, rating?, timestamp, language, source, sentiment}`. -/
structure Review where
  id : String
  text : String
  rating : Option ℚ
  timestamp : Option String
  lang : Option String
  source : Option String
  sentiment : ℚ
deriving DecidableEq, Repr

/-- Modelled from the spec: a record missing `id` or `text` (or whose text is
empty after normalization) is dropped and counted as a skipped-record error,
never fatal; a kept record becomes a Review with neutral sentiment pending
scoring. -/
def normalizeRecord (r : RawRecord) : Option Review :=
  match r.id, r.text with
  | some i, some t =>
      if t == "" then none
      else some { id := i, text := t, rating := r.rating,
                  timestamp := r.timestamp, lang := r.lang,
                  source := r.source, sentiment := 0 }
  | _, _ => none

/-- Modelled from the spec: the Review Normalizer over a batch. -/
def normalize (rs : List RawRecord) : List Review :=
  rs.filterMap normalizeRecord

/-- Modelled from the spec: availability of the two external services the
pipeline depends on. -/
structure Services where
  embeddingUp : Bool
  llmUp : Bool
deriving DecidableEq, Repr

/-- Modelled from the spec: the Sentiment Scorer assigns each review a
deterministic scalar in [-1, 1] (here a rating-derived proxy; a missing
rating scores neutral). -/
def scoreReviews (reviews : List Review) : List Review :=
  reviews.map (fun r =>
    { r with sentiment := match r.rating with
        | some q => (q - 3) / 2
        | none => 0 })

/-- Modelled from the spec: the Embedding Provider returns one vector per
review; when the external service is down the whole batch falls back to the
local lexical vectorization and the run is flagged degraded. -/
def embedReviews (reviews : List Review) (svc : Services) :
    List (List ℚ) × Bool :=
  if svc.embeddingUp then (reviews.map (fun _ => [1, 0]), false)
  else (reviews.map (fun _ => [0, 1]), true)

/-- Modelled from the spec: the Cluster Engine groups the scored reviews
(here into the single thematic cluster covering the dataset, share 1). -/
def clusterReviews (reviews : List Review) : List Cluster :=
  [{ id := "cluster-0", label := "Tutte le recensioni",
     size := (reviews.length : ℚ), share := 1,
     sentiment := (reviews.map Review.sentiment).sum / (reviews.length : ℚ),
     trend := [], keywords := ["recensioni"], summary := "",
     strengths := [], weaknesses := [], opportunity_score := 0,
     quotes := (reviews.take 3).map (fun r =>
       { id := r.id, text := r.text, rating := r.rating,
         lang := r.lang.getD "" }),
     co_occurs := [] }]

/-- Modelled from the spec: the Summarizer enriches every cluster via
`summarize`; a down LLM makes every call fail and flags the run degraded. -/
def summarizeClusters (clusters : List Cluster) (svc : Services) :
    List Cluster × Bool :=
  (clusters.map (fun c =>
    { c with
      label := (summarize c (if svc.llmUp
        then some { label := "Sintesi", summary := "Riassunto generato.",
                    strengths := [], weaknesses := [] } else none)).label,
      summary := (summarize c (if svc.llmUp
        then some { label := "Sintesi", summary := "Riassunto generato.",
                    strengths := [], weaknesses := [] } else none)).summary }),
   !svc.llmUp)

/-- Modelled from the spec: the Orchestrator assembles the complete artifact
from the run's reviews, clusters and personas. -/
def assembleArtifact (reviews : List Review) (clusters : List Cluster)
    (personas : List Persona) : ProjectData :=
  { meta := { project_id := "dataset",
              name := "Dataset",
              source := "reviews",
              date_range := ("", ""),
              languages := (reviews.filterMap Review.lang).dedup,
              totals := ((reviews.length : ℚ), (clusters.length : ℚ)) },
    aggregates := {
      sentiment_mean :=
        (reviews.map Review.sentiment).sum / (reviews.length : ℚ),
      sentiment_dist :=
        (((reviews.filter (fun r =>
            decide (r.sentiment < -(1 : ℚ)/5))).length : ℚ)
            / (reviews.length : ℚ),
         ((reviews.filter (fun r =>
            decide (-(1 : ℚ)/5 ≤ r.sentiment ∧
              r.sentiment ≤ (1 : ℚ)/5))).length : ℚ)
            / (reviews.length : ℚ),
         ((reviews.filter (fun r =>
            decide ((1 : ℚ)/5 < r.sentiment))).length : ℚ)
            / (reviews.length : ℚ)),
      rating_hist := [1, 2, 3, 4, 5].map (fun (k : ℕ) =>
        ((k : ℚ), ((reviews.filter (fun r =>
          decide (r.rating = some (k : ℚ)))).length : ℚ))) },
    clusters := clusters, personas := personas, timeseries := none }

/-- Modelled from the spec: the artifact emitted by a run, carrying the
Degraded flag consumers use to tell full-quality runs apart. -/
structure PipelineArtifact where
  data : ProjectData
  degraded : Bool

/-- Modelled from the spec: the Pipeline Orchestrator.  Zero valid reviews
after normalization is the single fatal error, reported before the Scoring
stage runs; otherwise the stages run in order, service outages only flag the
artifact as degraded, and one complete artifact is emitted. -/
def runPipeline (raw : List RawRecord) (svc : Services) :
    Except String PipelineArtifact :=
  if (normalize raw).isEmpty then
    Except.error "fatal: zero valid reviews after normalization"
  else
    let scored := scoreReviews (normalize raw)
    let embDegraded := (embedReviews scored svc).2
    let summarized := (summarizeClusters (clusterReviews scored) svc).1
    let sumDegraded := (summarizeClusters (clusterReviews scored) svc).2
    Except.ok { data := assembleArtifact scored summarized
                  (synthesize summarized),
                degraded := embDegraded || sumDegraded }

end InsightSuite

namespace InsightSuite

/-- C7: a pipeline run either emits one complete artifact (possibly flagged
degraded) or reports the single fatal error; the fatal case is exactly an
empty normalized-review list, independently of service availability, and any
service outage only degrades the emitted artifact. -/
theorem runPipeline_fatal_iff (raw : List RawRecord) (svc : Services) :
    (normalize raw = [] →
      runPipeline raw svc =
        Except.error "fatal: zero valid reviews after normalization") ∧
    (normalize raw ≠ [] → ∃ a, runPipeline raw svc = Except.ok a) := by
  constructor
  · intro h0
    unfold runPipeline
    rw [if_pos (List.isEmpty_iff.2 h0)]
  · intro hne
    unfold runPipeline
    rw [if_neg (by simpa [List.isEmpty_iff] using hne)]
    exact ⟨_, rfl⟩

/-- A concrete raw batch with one usable record, used to witness claim C7. -/
def rawBatchWitness : List RawRecord :=
  [{ id := some "r1", text := some "Ottimo soggiorno", rating := some 5,
     timestamp := some "2024-01-01", lang := some "it",
     source := some "airbnb" }]

/-- Both external services down: the worst non-fatal environment. -/
def downServices : Services :=
  { embeddingUp := false, llmUp := false }

/-- Witness for C7: with one valid record and every external service down,
normalization is non-empty and the run still emits an artifact. -/
theorem runPipeline_fatal_iff_witness :
    normalize rawBatchWitness ≠ [] ∧
      ∃ a, runPipeline rawBatchWitness downServices = Except.ok a :=
  ⟨by decide,
   (runPipeline_fatal_iff rawBatchWitness downServices).2 (by decide)⟩

end InsightSuite
